import Mathlib

/-!
Verification development for the energy/weather data-reconciliation pipeline
(data_fetcher.py, data_processor.py, analysis.py).

Modelling conventions:
* calendar dates are day indices (Nat); the ISO date strings of the source are
  in order-preserving bijection with day indices, so max/ordering/equality of
  dates is faithfully represented;
* numeric values are rationals; the source uses IEEE doubles, but every claim
  here is about exact arithmetic (tenths-to-Fahrenheit at exact points,
  comparisons against integer bounds), where the two agree;
* a pandas missing value (NaN cell, or a None return) is an Option none;
  pandas comparisons against NaN are false, mirrored by matching on Option;
* the HTTP transport is an oracle (op : Nat -> Except String A) giving the
  outcome of attempt number n (0-based); time.sleep is recorded, not performed.
-/

namespace EnergyPipeline

/-- Outcome of a Python call that may return a value, raise, or fall off the
end of a loop and implicitly return None. -/
inductive RetryOutcome (α : Type) where
  | success (a : α)
  | raised (e : String)
  | fellThrough
deriving DecidableEq, Repr

/-- Trace of one invocation of the function wrapped by retry_request:
final outcome, how many times the wrapped operation was invoked, and the
list of sleep durations (seconds) in order. -/
structure RetryTrace (α : Type) where
  outcome : RetryOutcome α
  calls : Nat
  sleeps : List Nat
deriving DecidableEq, Repr

/-- The while-loop body of retry_request (data_fetcher.py lines 62-77).
The Python loop guard is retries < max_retries; we run it with structural
fuel maintaining fuel = maxRetries - retries, so fuel = 0 exactly when the
guard is false (the wrapper then implicitly returns None).
On failure, retries becomes retries+1, the wait is
delay * backoff ^ (retries+1-1) = delay * backoff ^ retries; if the new
retries equals max_retries the exception is re-raised without sleeping,
otherwise the loop sleeps and continues. -/
def retryAux (op : Nat → Except String α) (delay backoff maxRetries : Nat) :
    Nat → Nat → RetryTrace α
  | _retries, 0 => { outcome := .fellThrough, calls := 0, sleeps := [] }
  | retries, fuel + 1 =>
    match op retries with
    | .ok a => { outcome := .success a, calls := 1, sleeps := [] }
    | .error e =>
      if retries + 1 = maxRetries then
        { outcome := .raised e, calls := 1, sleeps := [] }
      else
        let rest := retryAux op delay backoff maxRetries (retries + 1) fuel
        { outcome := rest.outcome, calls := rest.calls + 1,
          sleeps := delay * backoff ^ retries :: rest.sleeps }

/-- retry_request(max_retries, delay, backoff) applied to an operation:
the wrapper starts with retries = 0. -/
def retry_request (maxRetries delay backoff : Nat)
    (op : Nat → Except String α) : RetryTrace α :=
  retryAux op delay backoff maxRetries 0 maxRetries

/-- make_api_request (data_fetcher.py lines 80-85) is decorated with
retry_request() at its defaults max_retries=3, delay=5, backoff=2. -/
def make_api_request (op : Nat → Except String α) : RetryTrace α :=
  retry_request 3 5 2 op

/-- fetch_noaa_data (lines 100-112) issues its request through
make_api_request, hence through the retry wrapper. -/
def fetch_noaa_data (op : Nat → Except String α) : RetryTrace α :=
  make_api_request op

/-- fetch_eia_data (lines 114-131) calls requests.get directly: the
operation runs exactly once and any exception propagates immediately. -/
def fetch_eia_data (op : Nat → Except String α) : RetryTrace α :=
  match op 0 with
  | .ok a => { outcome := .success a, calls := 1, sleeps := [] }
  | .error e => { outcome := .raised e, calls := 1, sleeps := [] }

/-- The numeric core of tenths_c_to_f (data_processor.py lines 30-35):
celsius = t / 10; (celsius * 9 / 5) + 32. -/
def tenthsToFVal (t : ℚ) : ℚ := t / 10 * 9 / 5 + 32

/-- tenths_c_to_f: None maps to None, otherwise the numeric conversion. -/
def tenths_c_to_f : Option ℚ → Option ℚ
  | none => none
  | some t => some (tenthsToFVal t)

/-! ## Normalizer: NOAA weather transform (data_processor.py lines 49-75) -/

/-- One entry of the results list of a raw NOAA payload:
(date, datatype, value in tenths of a degree Celsius). -/
structure NoaaObs where
  date : Nat
  datatype : String
  value : ℚ
deriving DecidableEq, Repr

/-- One row of the pivoted weather DataFrame: one row per date, the two
datatype columns converted to Fahrenheit, absent cells as none. -/
structure WeatherRow where
  date : Nat
  tmax_f : Option ℚ
  tmin_f : Option ℚ
deriving DecidableEq, Repr

/-- Result of a Python processor that returns either None (parse failure)
or a DataFrame (list of rows, possibly empty). -/
inductive ProcOut (α : Type) where
  | parseFailure
  | frame (rows : List α)
deriving DecidableEq, Repr

/-- A raw per-city per-source file as the processor sees it: unreadable
(missing file or malformed JSON) or a parsed payload. For NOAA the payload
is the results list; a payload without a results key is the empty list. -/
inductive RawNoaaFile where
  | unreadable
  | payload (results : List NoaaObs)
deriving DecidableEq, Repr

/-- Insert a date into an ascending duplicate-free date list, keeping it
ascending and duplicate-free (the index of pivot_table is sorted unique). -/
def insertSortedUnique (d : Nat) : List Nat → List Nat
  | [] => [d]
  | x :: xs =>
    if d = x then x :: xs
    else if d < x then d :: x :: xs
    else x :: insertSortedUnique d xs

/-- The sorted unique dates of a results list: the pivot_table index. -/
def sortedUniqueDates (rs : List NoaaObs) : List Nat :=
  rs.foldl (fun acc r => insertSortedUnique r.date acc) []

/-- Values of a given datatype observed at a given date. -/
def valuesFor (rs : List NoaaObs) (d : Nat) (dt : String) : List ℚ :=
  (rs.filter (fun r => decide (r.date = d ∧ r.datatype = dt))).map (fun r => r.value)

/-- Mean of a cell group; an empty group is a missing (NaN) cell.
pivot_table aggregates duplicate (date, datatype) pairs with mean. -/
def meanOpt : List ℚ → Option ℚ
  | [] => none
  | l => some (l.sum / l.length)

/-- The pivot plus unit conversion on a non-empty results list: one row per
distinct date, tmax_f and tmin_f obtained by applying tenths_c_to_f to the
pivoted cell (an absent datatype yields a missing field, never zero). -/
def process_noaa_rows (rs : List NoaaObs) : List WeatherRow :=
  (sortedUniqueDates rs).map (fun d =>
    { date := d,
      tmax_f := tenths_c_to_f (meanOpt (valuesFor rs d "TMAX")),
      tmin_f := tenths_c_to_f (meanOpt (valuesFor rs d "TMIN")) })

/-- process_noaa_data: parse failure returns None; a falsy results list
returns an empty DataFrame; otherwise pivot and convert. -/
def process_noaa_data : RawNoaaFile → ProcOut WeatherRow
  | .unreadable => .parseFailure
  | .payload rs => if rs = [] then .frame [] else .frame (process_noaa_rows rs)

/-! ## Normalizer: EIA demand transform (data_processor.py lines 77-104) -/

/-- A scalar JSON value as seen by pd.to_numeric: a number, a string that
parses as a number, a string that does not, or null. -/
inductive JVal where
  | num (q : ℚ)
  | numStr (q : ℚ)
  | badStr (s : String)
  | null
deriving DecidableEq, Repr

/-- pd.to_numeric with coercion: non-numeric values become NaN (none);
no row is dropped by this step. -/
def to_numeric_coerce : JVal → Option ℚ
  | .num q => some q
  | .numStr q => some q
  | .badStr _ => none
  | .null => none

/-- One entry of the data list of a raw EIA payload. -/
structure EiaRow where
  period : Nat
  type : String
  timezone : String
  value : JVal
deriving DecidableEq, Repr

/-- One row of the processed demand DataFrame after renaming
period to date and value to energy_mwh. -/
structure DemandRow where
  date : Nat
  energy_mwh : Option ℚ
deriving DecidableEq, Repr

/-- Column selection, renaming and numeric coercion of one kept row. -/
def demandConv (r : EiaRow) : DemandRow :=
  { date := r.period, energy_mwh := to_numeric_coerce r.value }

/-- The primary filter: demand-type rows in the Eastern timezone. -/
def easternRows (data : List EiaRow) : List EiaRow :=
  data.filter (fun r => decide (r.type = "D" ∧ r.timezone = "Eastern"))

/-- The fallback filter: demand-type rows in any timezone. -/
def demandTypeRows (data : List EiaRow) : List EiaRow :=
  data.filter (fun r => decide (r.type = "D"))

/-- Whether a cell is NA to pandas: a JSON null lands in the frame as
None/NaN and is skipped by GroupBy.first; every other value is kept. -/
def jvalIsNA : JVal → Bool
  | .null => true
  | _ => false

/-- The sorted unique periods of a data list: the group keys of
groupby(period), which sorts its output by key. -/
def sortedUniquePeriods (l : List EiaRow) : List Nat :=
  l.foldl (fun acc r => insertSortedUnique r.period acc) []

/-- The aggregated row of one period group under GroupBy.first: for each
column, the first non-NA entry of the group (NA when the whole group is
NA). The type and timezone columns are never NA, so their first non-NA
entry is the first row's; only the value column can hold a null. -/
def groupAgg (g : List EiaRow) (p : Nat) : EiaRow :=
  { period := p,
    type := match g with | [] => "" | r :: _ => r.type,
    timezone := match g with | [] => "" | r :: _ => r.timezone,
    value := match g.find? (fun r => !(jvalIsNA r.value)) with
             | some r => r.value
             | none => .null }

/-- groupby(period).first().reset_index() on the fallback rows: one row per
distinct period, sorted by period, each column aggregated to its first
non-NA entry within the group. -/
def groupby_period_first (l : List EiaRow) : List EiaRow :=
  (sortedUniquePeriods l).map (fun p =>
    groupAgg (l.filter (fun r => decide (r.period = p))) p)

/-- A raw EIA file: unreadable, or a parsed payload whose data list is the
response.data list (a payload missing that key is the empty list). -/
inductive RawEiaFile where
  | unreadable
  | payload (data : List EiaRow)
deriving DecidableEq, Repr

/-- process_eia_data: parse failure returns None; a falsy data list returns
an empty DataFrame; otherwise filter to Eastern demand rows, and exactly
when that is empty re-filter to demand rows of any timezone, aggregating
with groupby(period).first() only when duplicate periods exist; finally
select, rename and coerce. -/
def process_eia_data : RawEiaFile → ProcOut DemandRow
  | .unreadable => .parseFailure
  | .payload data =>
    if data = [] then .frame []
    else
      let eastern := easternRows data
      let chosen :=
        if eastern = [] then
          let anyTz := demandTypeRows data
          if ((anyTz.map (fun r => r.period)).Nodup : Prop) then anyTz
          else groupby_period_first anyTz
        else eastern
      .frame (chosen.map demandConv)

/-! ## Joiner (data_processor.py lines 156-163) -/

/-- Full English weekday names; a date (day index) maps to its name through
its residue mod 7, the day-index image of the proleptic Gregorian weekday. -/
def dayNames : List String :=
  ["Monday", "Tuesday", "Wednesday", "Thursday", "Friday", "Saturday", "Sunday"]

/-- day_of_week is derived from the date, never fetched. -/
def dayOfWeek (d : Nat) : String := dayNames.getD (d % 7) "Monday"

/-- One combined city-day record of the processed output. -/
structure CombinedRecord where
  city : String
  date : Nat
  tmax_f : Option ℚ
  tmin_f : Option ℚ
  energy_mwh : Option ℚ
  day_of_week : String
deriving DecidableEq, Repr

/-- pd.merge(noaa_df, eia_df, on=date, how=inner): every pair of rows
agreeing on date, in left-key order (multiplicity semantics of pandas). -/
def innerMerge (ws : List WeatherRow) (ds : List DemandRow) :
    List (WeatherRow × DemandRow) :=
  ws.flatMap (fun w => (ds.filter (fun d => decide (d.date = w.date))).map (fun d => (w, d)))

/-- The join step for one city: inner merge, attach the city constant,
derive day_of_week from the date. -/
def combineCity (city : String) (ws : List WeatherRow) (ds : List DemandRow) :
    List CombinedRecord :=
  (innerMerge ws ds).map (fun p =>
    { city := city, date := p.1.date, tmax_f := p.1.tmax_f, tmin_f := p.1.tmin_f,
      energy_mwh := p.2.energy_mwh, day_of_week := dayOfWeek p.1.date })

/-! ## The per-run loop of process_all_data (data_processor.py lines 114-173) -/

/-- What the raw-data directory holds for one configured city: none means no
file with that source tag was listed for the city. -/
structure CityInput where
  name : String
  noaaFile : Option RawNoaaFile
  eiaFile : Option RawEiaFile
deriving Repr

/-- An uncaught Python exception escaping the loop body. Evaluating
noaa_df.empty when process_noaa_data returned None raises AttributeError. -/
inductive PyError where
  | attributeError
deriving DecidableEq, Repr

/-- The loop body for one city. Mirrors the source order: missing-file
checks first (skip), then process both raw files, then the guard
noaa_df.empty or eia_df.empty — evaluated left to right, and raising
AttributeError when the operand is None rather than a DataFrame — then the
merge and derived columns. Returns ok none for a skip, ok (some rows) for a
written per-city output, error when an exception escapes the body. -/
def processCity (c : CityInput) : Except PyError (Option (List CombinedRecord)) :=
  match c.noaaFile, c.eiaFile with
  | none, _ => .ok none
  | some _, none => .ok none
  | some nf, some ef =>
    match process_noaa_data nf with
    | .parseFailure => .error .attributeError
    | .frame nrows =>
      if nrows = [] then .ok none
      else
        match process_eia_data ef with
        | .parseFailure => .error .attributeError
        | .frame erows =>
          if erows = [] then .ok none
          else .ok (some (combineCity c.name nrows erows))

/-- The for-loop over configured cities: a skip continues with the next
city, an uncaught exception propagates and aborts the remainder of the run. -/
def process_all_data : List CityInput → Except PyError (List (String × List CombinedRecord))
  | [] => .ok []
  | c :: cs =>
    match processCity c with
    | .error e => .error e
    | .ok none => process_all_data cs
    | .ok (some recs) => (process_all_data cs).map (fun rest => (c.name, recs) :: rest)

/-! ## Quality analyzer (analysis.py lines 28-62) -/

/-- Missing-value counts per nullable column of the combined DataFrame
(city, date and day_of_week are never null by construction; the percent
column of the report is count / len * 100, derived from these counts). -/
structure MissingSummary where
  tmax_missing : Nat
  tmin_missing : Nat
  energy_missing : Nat
deriving DecidableEq, Repr

/-- check_missing_values: count the null entries of each column. -/
def check_missing_values (df : List CombinedRecord) : MissingSummary :=
  { tmax_missing := (df.filter (fun r => decide (r.tmax_f = none))).length,
    tmin_missing := (df.filter (fun r => decide (r.tmin_f = none))).length,
    energy_missing := (df.filter (fun r => decide (r.energy_mwh = none))).length }

/-- The temperature-outlier row mask of check_outliers; a missing cell
compares false, as NaN does in pandas. -/
def isTempOutlier (r : CombinedRecord) : Bool :=
  (match r.tmax_f with | some v => decide (v > 130) || decide (v < -50) | none => false) ||
  (match r.tmin_f with | some v => decide (v > 130) || decide (v < -50) | none => false)

/-- The energy-outlier row mask of check_outliers (negative consumption). -/
def isEnergyOutlier (r : CombinedRecord) : Bool :=
  match r.energy_mwh with | some v => decide (v < 0) | none => false

/-- The outliers dictionary; an empty list models an absent key. -/
structure OutlierReport where
  temperature_outliers : List CombinedRecord
  energy_outliers : List CombinedRecord
deriving DecidableEq, Repr

/-- check_outliers: the two filtered sub-frames. -/
def check_outliers (df : List CombinedRecord) : OutlierReport :=
  { temperature_outliers := df.filter isTempOutlier,
    energy_outliers := df.filter isEnergyOutlier }

/-- check_data_freshness: the maximal date over all records, and the whole
days between wall-clock now (a day index) and it; none for an empty frame. -/
def check_data_freshness (df : List CombinedRecord) (now : Nat) : Option (Nat × Int) :=
  match (df.map (fun r => r.date)).max? with
  | none => none
  | some latest => some (latest, (now : Int) - (latest : Int))

/-- The structured quality report assembled by generate_quality_report. -/
structure QualityReport where
  freshness : Option (Nat × Int)
  missing : MissingSummary
  outliers : OutlierReport
deriving DecidableEq, Repr

/-- The analysis step as run: the three checks over the combined records,
with the wall-clock day at analysis time as an explicit argument. -/
def analyze (df : List CombinedRecord) (now : Nat) : QualityReport :=
  { freshness := check_data_freshness df now,
    missing := check_missing_values df,
    outliers := check_outliers df }

/-! ## Concrete sample inputs used by witnesses and counterexamples -/

/-- A transport failing on attempt 0 and succeeding from attempt 1 on. -/
def failOnceOp : Nat → Except String Nat :=
  fun n => if n = 0 then .error "boom" else .ok 42

/-- A transport failing on attempts 0 and 1 and succeeding on attempt 2. -/
def failTwiceOp : Nat → Except String Nat :=
  fun n => if n < 2 then .error "transient" else .ok 7

/-- A transport failing on every attempt. -/
def alwaysFailOp : Nat → Except String Nat :=
  fun _ => .error "down"

/-- An EIA data list with no Eastern rows and a duplicated period among the
demand-type rows, exercising the fallback and its de-duplication. -/
def eiaFallbackSample : List EiaRow :=
  [{ period := 0, type := "D", timezone := "Pacific", value := .num 1 },
   { period := 0, type := "D", timezone := "Central", value := .num 2 },
   { period := 1, type := "D", timezone := "Pacific", value := .num 3 }]

/-- The processed output of the fallback sample: one row per period, the
value being the first non-NA entry of the group. -/
def eiaFallbackSampleOut : List DemandRow :=
  [{ date := 0, energy_mwh := some 1 }, { date := 1, energy_mwh := some 3 }]

/-- An EIA data list with no Eastern rows whose duplicated period has a
null-valued first row and a numeric later row: GroupBy.first skips the
null, so the emitted value is not the first whole row's. -/
def eiaNullLeadSample : List EiaRow :=
  [{ period := 0, type := "D", timezone := "Pacific", value := .null },
   { period := 0, type := "D", timezone := "Central", value := .num 2 }]

/-- A city whose raw NOAA file is malformed (its parse fails) while its raw
EIA file is perfectly valid. -/
def cityAlpha : CityInput :=
  { name := "Alpha", noaaFile := some .unreadable,
    eiaFile := some (.payload [{ period := 0, type := "D", timezone := "Eastern", value := .num 100 }]) }

/-- A healthy sibling city with valid raw files for both sources. -/
def cityBeta : CityInput :=
  { name := "Beta",
    noaaFile := some (.payload [{ date := 0, datatype := "TMAX", value := 250 }]),
    eiaFile := some (.payload [{ period := 0, type := "D", timezone := "Eastern", value := .num 100 }]) }

/-- The combined record the healthy sibling city produces on its own. -/
def betaRecord : CombinedRecord :=
  { city := "Beta", date := 0, tmax_f := some 77, tmin_f := none,
    energy_mwh := some 100, day_of_week := "Monday" }

/-- A city whose raw EIA file carries a demand value that is not numeric. -/
def gammaCity : CityInput :=
  { name := "Gamma",
    noaaFile := some (.payload [{ date := 0, datatype := "TMAX", value := 250 }]),
    eiaFile := some (.payload
      [{ period := 0, type := "D", timezone := "Eastern", value := .badStr "not a number" }]) }

/-- The combined record the city with the non-numeric demand value emits. -/
def gammaRecord : CombinedRecord :=
  { city := "Gamma", date := 0, tmax_f := some 77, tmin_f := none,
    energy_mwh := none, day_of_week := "Monday" }

/-- A combined record used by the analyzer claims. -/
def sampleRecord : CombinedRecord :=
  { city := "Gamma", date := 5, tmax_f := some 70, tmin_f := some 50,
    energy_mwh := some 100, day_of_week := "Saturday" }

/-! ## Theorems -/

/-- C1: with the default configuration max_retries=3, delay=5, backoff=2,
an operation failing exactly twice and then succeeding makes the wrapper
return the successful result after sleeping delay, then delay*backoff
(5 and 10, totalling 15); an always-failing operation is invoked exactly
max_retries = 3 times, the error is then re-raised to the caller, and
the wait before retry k is delay * backoff ^ (k-1). -/
theorem retry_policy_defaults (op₁ op₂ : Nat → Except String Nat)
    (e₀ e₁ : String) (a : Nat)
    (h0 : op₁ 0 = .error e₀) (h1 : op₁ 1 = .error e₁) (h2 : op₁ 2 = .ok a)
    (hfail : ∀ n, ∃ e, op₂ n = .error e) :
    (retry_request 3 5 2 op₁).outcome = .success a ∧
    (retry_request 3 5 2 op₁).calls = 3 ∧
    (retry_request 3 5 2 op₁).sleeps = [5 * 2 ^ 0, 5 * 2 ^ 1] ∧
    (retry_request 3 5 2 op₁).sleeps.sum = 15 ∧
    (retry_request 3 5 2 op₂).calls = 3 ∧
    (∃ e, (retry_request 3 5 2 op₂).outcome = .raised e) := by
  obtain ⟨b₀, hb0⟩ := hfail 0
  obtain ⟨b₁, hb1⟩ := hfail 1
  obtain ⟨b₂, hb2⟩ := hfail 2
  refine ⟨?_, ?_, ?_, ?_, ?_, ⟨b₂, ?_⟩⟩ <;>
    simp [retry_request, retryAux, h0, h1, h2, hb0, hb1, hb2]

/-- Witness for retry_policy_defaults at concrete transports. -/
theorem retry_policy_defaults_witness :
    failTwiceOp 0 = .error "transient" ∧ failTwiceOp 1 = .error "transient" ∧
    failTwiceOp 2 = .ok 7 ∧ (∀ n, ∃ e, alwaysFailOp n = .error e) ∧
    ((retry_request 3 5 2 failTwiceOp).outcome = .success 7 ∧
     (retry_request 3 5 2 failTwiceOp).calls = 3 ∧
     (retry_request 3 5 2 failTwiceOp).sleeps = [5 * 2 ^ 0, 5 * 2 ^ 1] ∧
     (retry_request 3 5 2 failTwiceOp).sleeps.sum = 15 ∧
     (retry_request 3 5 2 alwaysFailOp).calls = 3 ∧
     (∃ e, (retry_request 3 5 2 alwaysFailOp).outcome = .raised e)) :=
  ⟨rfl, rfl, rfl, fun _ => ⟨"down", rfl⟩,
   retry_policy_defaults failTwiceOp alwaysFailOp "transient" "transient" 7
     rfl rfl rfl (fun _ => ⟨"down", rfl⟩)⟩

/-- C10: configured with max_retries = 0, the wrapper exits the loop at once
and implicitly returns None: the wrapped operation is never invoked and no
error is raised. -/
theorem retry_zero_never_invokes (op : Nat → Except String Nat) (delay backoff : Nat) :
    retry_request 0 delay backoff op =
      { outcome := .fellThrough, calls := 0, sleeps := [] } :=
  rfl

/-- C2 counterexample: a transient failure on attempt 0 with success on
attempt 1 is retried through the NOAA path (which goes through
make_api_request and hence retry_request) but propagates immediately from
fetch_eia_data, which invokes the operation exactly once: the demand
endpoint is not wrapped with the retry policy. -/
theorem eia_not_retried_cex :
    (fetch_eia_data failOnceOp).outcome = .raised "boom" ∧
    (fetch_eia_data failOnceOp).calls = 1 ∧
    (fetch_noaa_data failOnceOp).outcome = .success 42 ∧
    (fetch_noaa_data failOnceOp).calls = 2 := by
  refine ⟨rfl, rfl, ?_, ?_⟩ <;> rfl

/-- C2 amended: the station-scoped weather endpoint call is wrapped with the
bounded exponential-backoff retry policy (a failure on the first attempt is
retried and a later success is returned), while the region-scoped demand
endpoint issues a single unwrapped request: it invokes the operation exactly
once and propagates the first failure immediately. -/
theorem noaa_retried_eia_single_shot (op : Nat → Except String Nat)
    (e : String) (a : Nat) (h0 : op 0 = .error e) (h1 : op 1 = .ok a) :
    (fetch_noaa_data op).outcome = .success a ∧
    (fetch_noaa_data op).calls = 2 ∧
    (fetch_noaa_data op).sleeps = [5] ∧
    (fetch_eia_data op).outcome = .raised e ∧
    (fetch_eia_data op).calls = 1 := by
  refine ⟨?_, ?_, ?_, ?_, ?_⟩ <;>
    simp [fetch_noaa_data, make_api_request, retry_request, retryAux,
      fetch_eia_data, h0, h1]

/-- Witness for noaa_retried_eia_single_shot at a concrete transport. -/
theorem noaa_retried_eia_single_shot_witness :
    failOnceOp 0 = .error "boom" ∧ failOnceOp 1 = .ok 42 ∧
    ((fetch_noaa_data failOnceOp).outcome = .success 42 ∧
     (fetch_noaa_data failOnceOp).calls = 2 ∧
     (fetch_noaa_data failOnceOp).sleeps = [5] ∧
     (fetch_eia_data failOnceOp).outcome = .raised "boom" ∧
     (fetch_eia_data failOnceOp).calls = 1) :=
  ⟨rfl, rfl, noaa_retried_eia_single_shot failOnceOp "boom" 42 rfl rfl⟩

/-- C6: the tenths-of-Celsius to Fahrenheit conversion computes
(value / 10 * 9 / 5) + 32; it is monotone, and maps 0 to 32 and 100 to 50. -/
theorem tenths_conversion_monotone (x y : ℚ) (hxy : x ≤ y) :
    tenths_c_to_f (some x) = some (x / 10 * 9 / 5 + 32) ∧
    tenthsToFVal x ≤ tenthsToFVal y ∧
    tenths_c_to_f (some 0) = some 32 ∧
    tenths_c_to_f (some 100) = some 50 := by
  refine ⟨rfl, ?_, by norm_num [tenths_c_to_f, tenthsToFVal], by norm_num [tenths_c_to_f, tenthsToFVal]⟩
  have hx : tenthsToFVal x = x * (9 / 50) + 32 := by unfold tenthsToFVal; ring
  have hy : tenthsToFVal y = y * (9 / 50) + 32 := by unfold tenthsToFVal; ring
  rw [hx, hy]
  have : x * (9 / 50) ≤ y * (9 / 50) :=
    mul_le_mul_of_nonneg_right hxy (by norm_num)
  linarith

/-- Witness for tenths_conversion_monotone at concrete inputs. -/
theorem tenths_conversion_monotone_witness :
    (3 : ℚ) ≤ 4 ∧
    (tenths_c_to_f (some 3) = some (3 / 10 * 9 / 5 + 32) ∧
     tenthsToFVal 3 ≤ tenthsToFVal 4 ∧
     tenths_c_to_f (some 0) = some 32 ∧
     tenths_c_to_f (some 100) = some 50) :=
  ⟨by norm_num, tenths_conversion_monotone 3 4 (by norm_num)⟩

/-- C9 counterexample: the quality analysis is not a function of the record
set alone: the same records analyzed on two different wall-clock days give
two different reports, because days_since_latest uses now at analysis time. -/
theorem analysis_not_pure_cex :
    analyze [sampleRecord] 10 ≠ analyze [sampleRecord] 11 := by
  decide

/-- C9 amended: the analyzer is deterministic given its input records and
the wall-clock day at analysis time: the missing-value summary and the
outlier sets depend only on the records, and two runs with equal records
and equal wall-clock day produce identical reports; only the freshness
section varies with the clock. -/
theorem analyzer_deterministic_given_clock (df : List CombinedRecord) (n₁ n₂ : Nat) :
    (analyze df n₁).missing = (analyze df n₂).missing ∧
    (analyze df n₁).outliers = (analyze df n₂).outliers ∧
    (n₁ = n₂ → analyze df n₁ = analyze df n₂) := by
  refine ⟨rfl, rfl, fun h => by rw [h]⟩

/-- Witness for analyzer_deterministic_given_clock at a concrete input. -/
theorem analyzer_deterministic_given_clock_witness :
    (10 = 10) ∧
    ((analyze [sampleRecord] 10).missing = (analyze [sampleRecord] 10).missing ∧
     (analyze [sampleRecord] 10).outliers = (analyze [sampleRecord] 10).outliers ∧
     analyze [sampleRecord] 10 = analyze [sampleRecord] 10) :=
  ⟨rfl, (analyzer_deterministic_given_clock [sampleRecord] 10 10).1,
    (analyzer_deterministic_given_clock [sampleRecord] 10 10).2.1,
    (analyzer_deterministic_given_clock [sampleRecord] 10 10).2.2 rfl⟩

/-- The temperature row mask holds exactly on the stated disjunction of
bound violations; a missing cell never matches, as NaN comparisons are
false in pandas. -/
theorem isTempOutlier_iff (r : CombinedRecord) :
    isTempOutlier r = true ↔
      ((∃ v, r.tmax_f = some v ∧ (v > 130 ∨ v < -50)) ∨
       (∃ v, r.tmin_f = some v ∧ (v > 130 ∨ v < -50))) := by
  unfold isTempOutlier
  rcases hmax : r.tmax_f with _ | vmax <;> rcases hmin : r.tmin_f with _ | vmin <;>
    simp

/-- The energy row mask holds exactly on negative consumption. -/
theorem isEnergyOutlier_iff (r : CombinedRecord) :
    isEnergyOutlier r = true ↔ ∃ v, r.energy_mwh = some v ∧ v < 0 := by
  unfold isEnergyOutlier
  rcases h : r.energy_mwh with _ | v <;> simp

/-- C8: a record is in the temperature-outlier set of the analyzer exactly
when it is a record of the input with tmax_f above 130 or below -50, or
tmin_f above 130 or below -50; it is in the energy-outlier set exactly when
its energy_mwh is negative; concretely, tmax_f = 135 is a temperature
outlier, tmax_f = 100 is not, energy_mwh = -5 is an energy outlier and
energy_mwh = 0 is not. -/
theorem outlier_classification (df : List CombinedRecord) (r : CombinedRecord) :
    (r ∈ (check_outliers df).temperature_outliers ↔
      r ∈ df ∧ ((∃ v, r.tmax_f = some v ∧ (v > 130 ∨ v < -50)) ∨
                (∃ v, r.tmin_f = some v ∧ (v > 130 ∨ v < -50)))) ∧
    (r ∈ (check_outliers df).energy_outliers ↔
      r ∈ df ∧ ∃ v, r.energy_mwh = some v ∧ v < 0) ∧
    isTempOutlier { sampleRecord with tmax_f := some 135 } = true ∧
    isTempOutlier { sampleRecord with tmax_f := some 100 } = false ∧
    isEnergyOutlier { sampleRecord with energy_mwh := some (-5) } = true ∧
    isEnergyOutlier { sampleRecord with energy_mwh := some 0 } = false := by
  refine ⟨?_, ?_, by decide, by decide, by decide, by decide⟩
  · rw [check_outliers]
    simp only [List.mem_filter, isTempOutlier_iff]
  · rw [check_outliers]
    simp only [List.mem_filter, isEnergyOutlier_iff]

/-- A filter and its negation split the length of a list. -/
theorem length_filter_add_length_filter_not {α : Type} (p : α → Bool) (l : List α) :
    (l.filter p).length + (l.filter (fun a => !(p a))).length = l.length := by
  induction l with
  | nil => rfl
  | cons a l ih =>
    cases h : p a <;> simp [List.filter_cons, h] <;> omega

/-- Pre-filtering by a weaker predicate does not change a filter. -/
theorem filter_filter_of_imp {α : Type} (p q : α → Bool)
    (h : ∀ a, p a = true → q a = true) (l : List α) :
    (l.filter q).filter p = l.filter p := by
  induction l with
  | nil => rfl
  | cons a l ih =>
    cases hq : q a with
    | false =>
      cases hp : p a with
      | false => simp [List.filter_cons, hq, hp, ih]
      | true => exact absurd (h a hp) (by simp [hq])
    | true => simp [List.filter_cons, hq, ih]

/-- Unfolding the inner merge on a cons of the left operand. -/
theorem innerMerge_cons (w : WeatherRow) (ws : List WeatherRow) (ds : List DemandRow) :
    innerMerge (w :: ws) ds =
      (ds.filter (fun d => decide (d.date = w.date))).map (fun d => (w, d)) ++
        innerMerge ws ds := by
  simp [innerMerge]

/-- The inner merge only looks at the right operand through its per-date
filters. -/
theorem innerMerge_congr (ws : List WeatherRow) (ds₁ ds₂ : List DemandRow)
    (h : ∀ w ∈ ws, ds₁.filter (fun d => decide (d.date = w.date)) =
      ds₂.filter (fun d => decide (d.date = w.date))) :
    innerMerge ws ds₁ = innerMerge ws ds₂ := by
  induction ws with
  | nil => rfl
  | cons w ws ih =>
    rw [innerMerge_cons, innerMerge_cons, h w (List.mem_cons_self w ws),
      ih (fun x hx => h x (List.mem_cons_of_mem w hx))]

/-- In a demand set with duplicate-free dates, at most one row carries any
given date. -/
theorem filter_date_length_le_one (ds : List DemandRow) (a : Nat)
    (hd : (ds.map (fun d => d.date)).Nodup) :
    (ds.filter (fun d => decide (d.date = a))).length ≤ 1 := by
  induction ds with
  | nil => simp
  | cons d ds ih =>
    rw [List.map_cons, List.nodup_cons] at hd
    by_cases hda : d.date = a
    · have hnil : ds.filter (fun x => decide (x.date = a)) = [] := by
        rw [List.filter_eq_nil_iff]
        intro x hx
        simp only [decide_eq_true_eq]
        intro hxa
        apply hd.1
        have h5 : x.date ∈ ds.map (fun d => d.date) := List.mem_map_of_mem _ hx
        rw [hda, ← hxa]
        exact h5
      simp [List.filter_cons, hda, hnil]
    · simpa [List.filter_cons, hda] using ih hd.2

/-- With duplicate-free demand dates, the merge emits at most one row per
weather row. -/
theorem innerMerge_length_le_left (ws : List WeatherRow) (ds : List DemandRow)
    (hd : (ds.map (fun d => d.date)).Nodup) :
    (innerMerge ws ds).length ≤ ws.length := by
  induction ws with
  | nil => simp [innerMerge]
  | cons w ws ih =>
    rw [innerMerge_cons]
    simp only [List.length_append, List.length_map, List.length_cons]
    have h1 := filter_date_length_le_one ds w.date hd
    omega

/-- With duplicate-free weather dates, each demand row is matched by at most
one weather row, so the merge emits at most one row per demand row. -/
theorem innerMerge_length_le_right :
    ∀ (ws : List WeatherRow) (ds : List DemandRow),
      (ws.map (fun w => w.date)).Nodup → (innerMerge ws ds).length ≤ ds.length := by
  intro ws
  induction ws with
  | nil => intro ds _; simp [innerMerge]
  | cons w ws ih =>
    intro ds hw
    rw [List.map_cons, List.nodup_cons] at hw
    rw [innerMerge_cons]
    have hcongr : innerMerge ws ds =
        innerMerge ws (ds.filter (fun d => !(decide (d.date = w.date)))) := by
      apply innerMerge_congr
      intro x hx
      have hne : x.date ≠ w.date := by
        intro he
        apply hw.1
        have h5 : x.date ∈ ws.map (fun w => w.date) := List.mem_map_of_mem _ hx
        rw [← he]
        exact h5
      refine (filter_filter_of_imp _ _ ?_ ds).symm
      intro d hd2
      simp only [decide_eq_true_eq] at hd2
      simp [hd2, hne]
    rw [hcongr]
    simp only [List.length_append, List.length_map]
    have h2 := ih (ds.filter (fun d => !(decide (d.date = w.date)))) hw.2
    have h3 := length_filter_add_length_filter_not
      (fun d : DemandRow => decide (d.date = w.date)) ds
    omega

/-- Membership in the sorted-unique insertion. -/
theorem mem_insertSortedUnique (d y : Nat) :
    ∀ (l : List Nat), y ∈ insertSortedUnique d l ↔ y = d ∨ y ∈ l := by
  intro l
  induction l with
  | nil => simp [insertSortedUnique]
  | cons x xs ih =>
    unfold insertSortedUnique
    by_cases h1 : d = x
    · subst h1
      simp
    · by_cases h2 : d < x
      · simp [h1, h2]
      · simp [h1, h2, ih]
        tauto

/-- The sorted-unique insertion preserves strict sortedness. -/
theorem sorted_insertSortedUnique (d : Nat) :
    ∀ (l : List Nat), l.Sorted (· < ·) → (insertSortedUnique d l).Sorted (· < ·) := by
  intro l
  induction l with
  | nil => intro _; simp [insertSortedUnique]
  | cons x xs ih =>
    intro hs
    rw [List.sorted_cons] at hs
    unfold insertSortedUnique
    by_cases h1 : d = x
    · rw [if_pos h1]
      exact List.sorted_cons.mpr hs
    · rw [if_neg h1]
      by_cases h2 : d < x
      · rw [if_pos h2, List.sorted_cons]
        refine ⟨?_, List.sorted_cons.mpr hs⟩
        intro b hb
        rcases List.mem_cons.mp hb with rfl | hb2
        · exact h2
        · exact lt_trans h2 (hs.1 b hb2)
      · rw [if_neg h2, List.sorted_cons]
        refine ⟨?_, ih hs.2⟩
        intro b hb
        rcases (mem_insertSortedUnique d b xs).mp hb with rfl | hb2
        · omega
        · exact hs.1 b hb2

/-- The pivot index is strictly sorted. -/
theorem sorted_sortedUniqueDates (rs : List NoaaObs) :
    (sortedUniqueDates rs).Sorted (· < ·) := by
  suffices h : ∀ (rs : List NoaaObs) (acc : List Nat), acc.Sorted (· < ·) →
      (rs.foldl (fun acc r => insertSortedUnique r.date acc) acc).Sorted (· < ·) by
    exact h rs [] (by simp)
  intro rs
  induction rs with
  | nil => intro acc h; exact h
  | cons r rs ih =>
    intro acc h
    exact ih _ (sorted_insertSortedUnique _ _ h)

/-- The dates of the pivoted weather output are duplicate-free: the pivot
produces one row per distinct date. -/
theorem nodup_process_noaa_dates (rs : List NoaaObs) :
    ((process_noaa_rows rs).map (fun w => w.date)).Nodup := by
  have h := List.Pairwise.imp (fun {a b} (hab : a < b) => Nat.ne_of_lt hab)
    (sorted_sortedUniqueDates rs)
  simpa [process_noaa_rows, List.map_map, Function.comp_def] using h

/-- C3 counterexample: the weather pivot of a single TMAX observation gives
one row, a demand payload with two Eastern demand readings for the same
period gives two processed rows with a duplicated date, and the inner join
of those processor outputs has 2 rows, exceeding min(1, 2) = 1. -/
theorem join_exceeds_min_cex :
    process_noaa_data (.payload [{ date := 0, datatype := "TMAX", value := 250 }]) =
      .frame [{ date := 0, tmax_f := some 77, tmin_f := none }] ∧
    process_eia_data (.payload
      [{ period := 0, type := "D", timezone := "Eastern", value := .num 100 },
       { period := 0, type := "D", timezone := "Eastern", value := .num 200 }]) =
      .frame [{ date := 0, energy_mwh := some 100 }, { date := 0, energy_mwh := some 200 }] ∧
    (innerMerge [{ date := 0, tmax_f := some 77, tmin_f := none }]
      [{ date := 0, energy_mwh := some 100 }, { date := 0, energy_mwh := some 200 }]).length = 2 ∧
    ¬ (2 ≤ min 1 2) := by
  refine ⟨?_, ?_, ?_, ?_⟩
  · simp [process_noaa_data, process_noaa_rows, sortedUniqueDates, insertSortedUnique,
      valuesFor, meanOpt, tenths_c_to_f, tenthsToFVal]
    norm_num
  · decide
  · decide
  · decide

/-- C3 amended: the weather side of the join always has duplicate-free
dates (it is a pivot with one row per date), and whenever both join inputs
have duplicate-free dates — the demand side does whenever the source had no
duplicate readings or the fallback de-duplication ran — the inner join on
date produces at most min(weather rows, demand rows) rows. -/
theorem join_count_min_of_unique_dates (rs : List NoaaObs)
    (ws : List WeatherRow) (ds : List DemandRow)
    (hw : (ws.map (fun w => w.date)).Nodup) (hd : (ds.map (fun d => d.date)).Nodup) :
    ((process_noaa_rows rs).map (fun w => w.date)).Nodup ∧
    (innerMerge ws ds).length ≤ min ws.length ds.length :=
  ⟨nodup_process_noaa_dates rs,
    le_min (innerMerge_length_le_left ws ds hd) (innerMerge_length_le_right ws ds hw)⟩

/-- Witness for join_count_min_of_unique_dates at concrete inputs. -/
theorem join_count_min_of_unique_dates_witness :
    (([{ date := 0, tmax_f := some 77, tmin_f := none },
       { date := 1, tmax_f := none, tmin_f := none }] : List WeatherRow).map
        (fun w => w.date)).Nodup ∧
    (([{ date := 0, energy_mwh := some 5 }] : List DemandRow).map
        (fun d => d.date)).Nodup ∧
    (((process_noaa_rows [{ date := 0, datatype := "TMAX", value := 250 }]).map
        (fun w => w.date)).Nodup ∧
     (innerMerge [{ date := 0, tmax_f := some 77, tmin_f := none },
        { date := 1, tmax_f := none, tmin_f := none }]
        [{ date := 0, energy_mwh := some 5 }]).length ≤
       min 2 1) :=
  ⟨by decide, by decide,
    join_count_min_of_unique_dates [{ date := 0, datatype := "TMAX", value := 250 }]
      [{ date := 0, tmax_f := some 77, tmin_f := none },
       { date := 1, tmax_f := none, tmin_f := none }]
      [{ date := 0, energy_mwh := some 5 }] (by decide) (by decide)⟩

/-- The NA mask holds exactly on the JSON null. -/
theorem jvalIsNA_iff (v : JVal) : jvalIsNA v = true ↔ v = .null := by
  cases v <;> simp [jvalIsNA]

/-- Coercing an NA value gives a missing entry. -/
theorem to_numeric_coerce_of_isNA {v : JVal} (h : jvalIsNA v = true) :
    to_numeric_coerce v = none := by
  rw [jvalIsNA_iff] at h
  rw [h]
  rfl

/-- Searching a filtered list is searching for the conjunction. -/
theorem find?_filter_eq {α : Type} (q pr : α → Bool) :
    ∀ (l : List α), (l.filter q).find? pr = l.find? (fun a => q a && pr a) := by
  intro l
  induction l with
  | nil => rfl
  | cons a l ih =>
    cases hq : q a <;> cases hp : pr a <;>
      simp [List.filter_cons, List.find?_cons, hq, hp, ih]

/-- When a predicate is satisfied by a unique member of a list, find?
returns exactly that member. -/
theorem find?_eq_some_of_unique {α : Type} (p : α → Bool) :
    ∀ (l : List α) (s : α), s ∈ l → p s = true →
      (∀ t ∈ l, p t = true → t = s) → l.find? p = some s := by
  intro l
  induction l with
  | nil => intro s hs _ _; simp at hs
  | cons a l ih =>
    intro s hs hps huniq
    cases hpa : p a with
    | true =>
      simp only [List.find?_cons, hpa]
      exact congrArg some (huniq a (List.mem_cons_self _ _) hpa)
    | false =>
      have hs2 : s ∈ l := by
        rcases List.mem_cons.mp hs with rfl | h2
        · exact absurd hps (by simp [hpa])
        · exact h2
      simp only [List.find?_cons, hpa]
      exact ih s hs2 hps (fun t ht hpt => huniq t (List.mem_cons_of_mem _ ht) hpt)

/-- Every group key of the groupby is the period of some input row. -/
theorem exists_row_of_mem_sortedUniquePeriods (l : List EiaRow) (p : Nat)
    (hp : p ∈ sortedUniquePeriods l) : ∃ r ∈ l, r.period = p := by
  suffices h : ∀ (l : List EiaRow) (acc : List Nat),
      p ∈ l.foldl (fun acc r => insertSortedUnique r.period acc) acc →
      p ∈ acc ∨ ∃ r ∈ l, r.period = p by
    rcases h l [] hp with hc | hc
    · simp at hc
    · exact hc
  intro l
  induction l with
  | nil => intro acc h; exact Or.inl h
  | cons r l ih =>
    intro acc h
    rcases ih (insertSortedUnique r.period acc) h with hc | hc
    · rcases (mem_insertSortedUnique _ _ _).mp hc with rfl | hacc
      · exact Or.inr ⟨r, List.mem_cons_self _ _, rfl⟩
      · exact Or.inl hacc
    · obtain ⟨s, hs, hsp⟩ := hc
      exact Or.inr ⟨s, List.mem_cons_of_mem _ hs, hsp⟩

/-- The group keys of the groupby are strictly sorted. -/
theorem sorted_sortedUniquePeriods (l : List EiaRow) :
    (sortedUniquePeriods l).Sorted (· < ·) := by
  suffices h : ∀ (l : List EiaRow) (acc : List Nat), acc.Sorted (· < ·) →
      (l.foldl (fun acc r => insertSortedUnique r.period acc) acc).Sorted (· < ·) by
    exact h l [] (by simp)
  intro l
  induction l with
  | nil => intro acc h; exact h
  | cons r l ih =>
    intro acc h
    exact ih _ (sorted_insertSortedUnique _ _ h)

/-- Case analysis for a frame produced by process_eia_data on a payload:
either the Eastern filter is non-empty and is what gets converted, or it is
empty and the fallback (with or without de-duplication) gets converted. -/
theorem process_eia_frame_cases (data : List EiaRow) (rows : List DemandRow)
    (hproc : process_eia_data (.payload data) = .frame rows) :
    (easternRows data ≠ [] ∧ rows = (easternRows data).map demandConv) ∨
    (easternRows data = [] ∧ ((demandTypeRows data).map (fun r => r.period)).Nodup ∧
      rows = (demandTypeRows data).map demandConv) ∨
    (easternRows data = [] ∧ ¬ ((demandTypeRows data).map (fun r => r.period)).Nodup ∧
      rows = (groupby_period_first (demandTypeRows data)).map demandConv) := by
  by_cases hdata : data = []
  · subst hdata
    rw [process_eia_data] at hproc
    simp at hproc
    right; left
    simp [easternRows, demandTypeRows, ← hproc]
  · rw [process_eia_data, if_neg hdata] at hproc
    by_cases he : easternRows data = []
    · by_cases hnd : ((demandTypeRows data).map (fun r => r.period)).Nodup
      · right; left
        simp only [he, hnd, if_pos, if_true] at hproc
        exact ⟨he, hnd, (ProcOut.frame.injEq _ _ ▸ hproc).symm⟩
      · right; right
        simp only [he, hnd, if_true, if_false] at hproc
        exact ⟨he, hnd, (ProcOut.frame.injEq _ _ ▸ hproc).symm⟩
    · left
      simp only [he, if_neg, if_false] at hproc
      exact ⟨he, (ProcOut.frame.injEq _ _ ▸ hproc).symm⟩

/-- C7 counterexample: at a fallback payload whose duplicated period leads
with a null-valued demand row followed by a numeric one, the code does not
keep the first row per date: GroupBy.first takes the first non-null entry
per column, so the emitted row carries the later numeric value, differing
from the conversion of the first row carrying that date. -/
theorem eia_fallback_not_first_row_cex :
    process_eia_data (.payload eiaNullLeadSample) =
      .frame [{ date := 0, energy_mwh := some 2 }] ∧
    easternRows eiaNullLeadSample = [] ∧
    (demandTypeRows eiaNullLeadSample).find? (fun t => decide (t.period = 0)) =
      some { period := 0, type := "D", timezone := "Pacific", value := .null } ∧
    demandConv { period := 0, type := "D", timezone := "Pacific", value := .null } ≠
      ({ date := 0, energy_mwh := some 2 } : DemandRow) := by
  decide

/-- C7 amended: exactly when the Eastern demand filter comes up empty, the
transform falls back to demand rows of any timezone; the fallback output
has at most one row per date, each date stemming from some demand row, and
each emitted value is the coercion of the first non-null value among the
demand rows carrying that date (missing when all of them are null) — the
per-column first-non-null rule of GroupBy.first, not whole-first-row
retention; when the Eastern filter is non-empty its rows are used as-is. -/
theorem eia_fallback_dedup (data : List EiaRow) (rows : List DemandRow)
    (hproc : process_eia_data (.payload data) = .frame rows) :
    (easternRows data ≠ [] → rows = (easternRows data).map demandConv) ∧
    (easternRows data = [] →
      (rows.map (fun r => r.date)).Nodup ∧
      ∀ r ∈ rows,
        (∃ s ∈ demandTypeRows data, s.period = r.date) ∧
        ((∃ s, (demandTypeRows data).find?
            (fun t => decide (t.period = r.date) && !(jvalIsNA t.value)) = some s ∧
            r.energy_mwh = to_numeric_coerce s.value) ∨
         ((∀ s ∈ demandTypeRows data, s.period = r.date → jvalIsNA s.value = true) ∧
          r.energy_mwh = none))) := by
  rcases process_eia_frame_cases data rows hproc with
    ⟨hne, hrows⟩ | ⟨he, hnd, hrows⟩ | ⟨he, hnd, hrows⟩
  · refine ⟨fun _ => hrows, fun hcontra => absurd hcontra hne⟩
  · refine ⟨fun hcontra => absurd he hcontra, fun _ => ⟨?_, ?_⟩⟩
    · subst hrows
      simpa [List.map_map, Function.comp_def, demandConv] using hnd
    · intro r hr
      subst hrows
      obtain ⟨s, hs, rfl⟩ := List.mem_map.mp hr
      refine ⟨⟨s, hs, rfl⟩, ?_⟩
      cases hna : jvalIsNA s.value with
      | false =>
        left
        refine ⟨s, ?_, rfl⟩
        apply find?_eq_some_of_unique _ _ s hs
        · simp [demandConv, hna]
        · intro t ht hpt
          simp only [Bool.and_eq_true, decide_eq_true_eq] at hpt
          exact List.inj_on_of_nodup_map hnd ht hs hpt.1
      | true =>
        right
        refine ⟨?_, to_numeric_coerce_of_isNA hna⟩
        intro t ht htp
        have heq : t = s := List.inj_on_of_nodup_map hnd ht hs htp
        rw [heq]
        exact hna
  · refine ⟨fun hcontra => absurd he hcontra, fun _ => ⟨?_, ?_⟩⟩
    · subst hrows
      have hnodup : (sortedUniquePeriods (demandTypeRows data)).Nodup :=
        List.Pairwise.imp (fun {a b} hab => Nat.ne_of_lt hab)
          (sorted_sortedUniquePeriods _)
      simpa [groupby_period_first, List.map_map, Function.comp_def, demandConv,
        groupAgg] using hnodup
    · intro r hr
      subst hrows
      rw [groupby_period_first] at hr
      obtain ⟨x, hx, rfl⟩ := List.mem_map.mp hr
      obtain ⟨p, hp, rfl⟩ := List.mem_map.mp hx
      obtain ⟨s₀, hs₀, hs₀p⟩ := exists_row_of_mem_sortedUniquePeriods _ p hp
      refine ⟨⟨s₀, hs₀, by simpa [demandConv, groupAgg] using hs₀p⟩, ?_⟩
      cases hfind : ((demandTypeRows data).filter
          (fun t => decide (t.period = p))).find? (fun t => !(jvalIsNA t.value)) with
      | some t =>
        left
        refine ⟨t, ?_, ?_⟩
        · have h2 := find?_filter_eq (fun t : EiaRow => decide (t.period = p))
            (fun t => !(jvalIsNA t.value)) (demandTypeRows data)
          rw [h2] at hfind
          exact hfind
        · simp [Function.comp_def, demandConv, groupAgg, hfind]
      | none =>
        right
        constructor
        · intro s hsmem hsp
          have hsg : s ∈ (demandTypeRows data).filter (fun t => decide (t.period = p)) := by
            refine List.mem_filter.mpr ⟨hsmem, ?_⟩
            simpa [demandConv, groupAgg] using hsp
          have h3 := List.find?_eq_none.mp hfind s hsg
          simpa using h3
        · simp [Function.comp_def, demandConv, groupAgg, hfind, to_numeric_coerce]

/-- Witness for eia_fallback_dedup on a payload with no Eastern rows and a
duplicated period among the demand rows. -/
theorem eia_fallback_dedup_witness :
    process_eia_data (.payload eiaFallbackSample) = .frame eiaFallbackSampleOut ∧
    ((easternRows eiaFallbackSample ≠ [] →
        eiaFallbackSampleOut = (easternRows eiaFallbackSample).map demandConv) ∧
     (easternRows eiaFallbackSample = [] →
        (eiaFallbackSampleOut.map (fun r => r.date)).Nodup ∧
        ∀ r ∈ eiaFallbackSampleOut,
          (∃ s ∈ demandTypeRows eiaFallbackSample, s.period = r.date) ∧
          ((∃ s, (demandTypeRows eiaFallbackSample).find?
              (fun t => decide (t.period = r.date) && !(jvalIsNA t.value)) = some s ∧
              r.energy_mwh = to_numeric_coerce s.value) ∨
           ((∀ s ∈ demandTypeRows eiaFallbackSample, s.period = r.date →
               jvalIsNA s.value = true) ∧
            r.energy_mwh = none)))) :=
  ⟨by decide, eia_fallback_dedup eiaFallbackSample eiaFallbackSampleOut (by decide)⟩

/-- Membership in the Eastern demand filter unpacked. -/
theorem mem_easternRows {data : List EiaRow} {s : EiaRow} (h : s ∈ easternRows data) :
    s ∈ data ∧ s.type = "D" ∧ s.timezone = "Eastern" := by
  have h2 := List.mem_filter.mp h
  simpa using h2

/-- Membership in the any-timezone demand filter unpacked. -/
theorem mem_demandTypeRows {data : List EiaRow} {s : EiaRow} (h : s ∈ demandTypeRows data) :
    s ∈ data ∧ s.type = "D" := by
  have h2 := List.mem_filter.mp h
  simpa using h2

/-- C5 counterexample: a demand row whose value is not numeric is not
excluded upstream of the join: a city with one valid weather observation
and one demand row carrying a non-numeric value emits a CombinedRecord
whose energy_mwh is missing rather than numeric. -/
theorem nonnumeric_energy_reaches_combined_cex :
    processCity gammaCity = .ok (some [gammaRecord]) ∧
    gammaRecord.energy_mwh = none := by
  refine ⟨?_, rfl⟩
  simp [processCity, gammaCity, gammaRecord, process_noaa_data, process_noaa_rows,
    sortedUniqueDates, insertSortedUnique, valuesFor, meanOpt, tenths_c_to_f, tenthsToFVal,
    process_eia_data, easternRows, demandTypeRows, demandConv, to_numeric_coerce,
    combineCity, innerMerge, dayOfWeek, dayNames] <;> norm_num

/-- C5 amended: the numeric coercion never excludes a demand row: every
processed demand row stems from a demand-type source row with its value run
through to_numeric with coercion (a non-numeric value becomes a missing
entry, not a dropped row), and along the primary Eastern path the row count
is preserved exactly. -/
theorem nonnumeric_coerced_not_excluded (data : List EiaRow) (rows : List DemandRow)
    (hproc : process_eia_data (.payload data) = .frame rows) :
    (∀ r ∈ rows, ∃ s ∈ data, s.type = "D" ∧ s.period = r.date ∧
      r.energy_mwh = to_numeric_coerce s.value) ∧
    (easternRows data ≠ [] → rows.length = (easternRows data).length) := by
  rcases process_eia_frame_cases data rows hproc with
    ⟨hne, hrows⟩ | ⟨he, hnd, hrows⟩ | ⟨he, hnd, hrows⟩
  · subst hrows
    refine ⟨?_, fun _ => List.length_map _ _⟩
    intro r hr
    obtain ⟨s, hs, rfl⟩ := List.mem_map.mp hr
    obtain ⟨hsd, hst, _⟩ := mem_easternRows hs
    exact ⟨s, hsd, hst, rfl, rfl⟩
  · subst hrows
    refine ⟨?_, fun hcontra => absurd he hcontra⟩
    intro r hr
    obtain ⟨s, hs, rfl⟩ := List.mem_map.mp hr
    obtain ⟨hsd, hst⟩ := mem_demandTypeRows hs
    exact ⟨s, hsd, hst, rfl, rfl⟩
  · subst hrows
    refine ⟨?_, fun hcontra => absurd he hcontra⟩
    intro r hr
    rw [groupby_period_first] at hr
    obtain ⟨x, hx, rfl⟩ := List.mem_map.mp hr
    obtain ⟨p, hp, rfl⟩ := List.mem_map.mp hx
    cases hfind : ((demandTypeRows data).filter
        (fun t => decide (t.period = p))).find? (fun t => !(jvalIsNA t.value)) with
    | some t =>
      have htf := List.mem_filter.mp (List.mem_of_find?_eq_some hfind)
      obtain ⟨htd, htD⟩ := mem_demandTypeRows htf.1
      have htp : t.period = p := by simpa using htf.2
      refine ⟨t, htd, htD, ?_, ?_⟩
      · simpa [demandConv, groupAgg] using htp
      · simp [demandConv, groupAgg, hfind]
    | none =>
      obtain ⟨s₀, hs₀, hs₀p⟩ := exists_row_of_mem_sortedUniquePeriods _ p hp
      obtain ⟨hsd, hsD⟩ := mem_demandTypeRows hs₀
      have hsg : s₀ ∈ (demandTypeRows data).filter (fun t => decide (t.period = p)) :=
        List.mem_filter.mpr ⟨hs₀, by simp [hs₀p]⟩
      have hna : jvalIsNA s₀.value = true := by
        have h3 := List.find?_eq_none.mp hfind s₀ hsg
        simpa using h3
      refine ⟨s₀, hsd, hsD, ?_, ?_⟩
      · simpa [demandConv, groupAgg] using hs₀p
      · have hval : s₀.value = .null := (jvalIsNA_iff _).mp hna
        simp [demandConv, groupAgg, hfind, hval, to_numeric_coerce]

/-- Witness for nonnumeric_coerced_not_excluded at a concrete payload whose
single demand row carries a non-numeric value. -/
theorem nonnumeric_coerced_not_excluded_witness :
    process_eia_data (.payload
      [{ period := 0, type := "D", timezone := "Eastern", value := .badStr "x" }]) =
      .frame [{ date := 0, energy_mwh := none }] ∧
    ((∀ r ∈ ([{ date := 0, energy_mwh := none }] : List DemandRow),
        ∃ s ∈ [({ period := 0, type := "D", timezone := "Eastern", value := .badStr "x" } : EiaRow)],
          s.type = "D" ∧ s.period = r.date ∧ r.energy_mwh = to_numeric_coerce s.value) ∧
     (easternRows [({ period := 0, type := "D", timezone := "Eastern", value := .badStr "x" } : EiaRow)] ≠ [] →
        ([({ date := 0, energy_mwh := none } : DemandRow)]).length =
          (easternRows [({ period := 0, type := "D", timezone := "Eastern", value := .badStr "x" } : EiaRow)]).length)) :=
  ⟨by decide, nonnumeric_coerced_not_excluded _ _ (by decide)⟩

/-- C4: on a malformed raw NOAA file the processor returns a parse-failure
signal distinct from a valid-but-empty frame — but the per-run loop then
evaluates the empty-check on that None value, raising AttributeError,
which aborts the whole run: a healthy sibling city that succeeds on its own
is never processed. This contradicts the stated isolation policy, whose
intent the source itself records by logging and continuing on invalid
frames; the claim is right and the code has a slip. -/
theorem parse_failure_aborts_run :
    process_noaa_data .unreadable = .parseFailure ∧
    process_noaa_data (.payload []) = .frame [] ∧
    (ProcOut.parseFailure ≠ (ProcOut.frame [] : ProcOut WeatherRow)) ∧
    processCity cityBeta = .ok (some [betaRecord]) ∧
    process_all_data [cityAlpha, cityBeta] = .error .attributeError := by
  refine ⟨rfl, rfl, by decide, ?_, rfl⟩
  simp [processCity, cityBeta, betaRecord, process_noaa_data, process_noaa_rows,
    sortedUniqueDates, insertSortedUnique, valuesFor, meanOpt, tenths_c_to_f, tenthsToFVal,
    process_eia_data, easternRows, demandTypeRows, demandConv, to_numeric_coerce,
    combineCity, innerMerge, dayOfWeek, dayNames] <;> norm_num

end EnergyPipeline
